import Mathlib

/-!
Verification of the mass-property aggregation and effective-property accessors
of `src/components/world_queries.rs` (avian / bevy_xpbd world queries).

Modelling conventions:
* The scalar type (`Scalar`, a machine float; the spec fixes `f64`) is embedded
  as the exact rationals `ℚ`.  All additions, subtractions, multiplications and
  divisions by provably nonzero denominators that the code performs are exact
  in this model.
* The one place where float semantics materially diverge from field arithmetic
  is the commit `self.inverse_mass.0 = 1.0 / self.mass.0`, whose divisor is the
  freshly committed mass, which `sub_assign` clamps with `.max(0.0)` and can
  therefore be exactly `0.0`.  Rust evaluates `1.0 / 0.0` to `+inf`, not `0`.
  The model tracks this with the type `FScalar` (a rational or the float
  infinity) and the function `fdivOne`, so that division by zero is not
  silently turned into Lean's `1 / 0 = 0` convention.
* Methods of types whose sources are not part of `src/` (`Inertia2d::shifted`,
  `Inertia2d::inverse`, their 3d counterparts, `LockedAxes::apply_to_vec`,
  `RigidBody::is_dynamic`) are modelled from the spec; each such definition
  carries a doc comment beginning with `Modelled from the spec:`.
-/

/-- Result of the Rust float expression `1.0 / x` at the commit sites of
`add_assign` / `sub_assign`, where the divisor is a committed mass and hence
nonnegative: either a finite (exact rational) value or the float `+inf`
produced by division by zero. -/
inductive FScalar where
  | fin (q : ℚ)
  | inf
deriving DecidableEq

/-- Models the Rust float expression `1.0 / m` for `m ≥ 0`: `+inf` when the
divisor is zero, the exact reciprocal otherwise. -/
def fdivOne (m : ℚ) : FScalar :=
  if m = 0 then FScalar.inf else FScalar.fin (1 / m)

/-- Nonnegativity of a committed inverse-mass value; the float `+inf`
compares `≥ 0`. -/
def FScalar.nonneg : FScalar → Prop
  | FScalar.fin q => 0 ≤ q
  | FScalar.inf => True

instance : DecidablePred FScalar.nonneg := fun x =>
  match x with
  | FScalar.fin q => inferInstanceAs (Decidable (0 ≤ q))
  | FScalar.inf => inferInstanceAs (Decidable True)

theorem fdivOne_nonneg (m : ℚ) (h : 0 ≤ m) : (fdivOne m).nonneg := by
  unfold fdivOne
  split
  · trivial
  · exact le_div_iff₀ (lt_of_le_of_ne h (by simp_all [eq_comm])) |>.mpr (by simp)

theorem fdivOne_of_ne (m : ℚ) (h : m ≠ 0) : fdivOne m = FScalar.fin (1 / m) := by
  simp [fdivOne, h]

/-- The 2d vector type (`Vector2` in the source, a pair of scalars). -/
@[ext]
structure Vector2 where
  x : ℚ
  y : ℚ
deriving DecidableEq

def Vector2.add (a b : Vector2) : Vector2 := ⟨a.x + b.x, a.y + b.y⟩

def Vector2.sub (a b : Vector2) : Vector2 := ⟨a.x - b.x, a.y - b.y⟩

/-- Vector–scalar product `v * s` (the source writes `com1 * self.mass.0`). -/
def Vector2.mulScalar (a : Vector2) (s : ℚ) : Vector2 := ⟨a.x * s, a.y * s⟩

/-- Vector–scalar division `v / s`. -/
def Vector2.divScalar (a : Vector2) (s : ℚ) : Vector2 := ⟨a.x / s, a.y / s⟩

/-- `Vector2::splat`. -/
def Vector2.splat (s : ℚ) : Vector2 := ⟨s, s⟩

def Vector2.length_squared (a : Vector2) : ℚ := a.x * a.x + a.y * a.y

instance : Add Vector2 := ⟨Vector2.add⟩

instance : Sub Vector2 := ⟨Vector2.sub⟩

instance : HMul Vector2 ℚ Vector2 := ⟨Vector2.mulScalar⟩

instance : HDiv Vector2 ℚ Vector2 := ⟨Vector2.divScalar⟩

@[simp]
theorem Vector2.add_x (a b : Vector2) : (a + b).x = a.x + b.x := rfl

@[simp]
theorem Vector2.add_y (a b : Vector2) : (a + b).y = a.y + b.y := rfl

@[simp]
theorem Vector2.sub_x (a b : Vector2) : (a - b).x = a.x - b.x := rfl

@[simp]
theorem Vector2.sub_y (a b : Vector2) : (a - b).y = a.y - b.y := rfl

@[simp]
theorem Vector2.mulScalar_x (a : Vector2) (s : ℚ) : (a * s).x = a.x * s := rfl

@[simp]
theorem Vector2.mulScalar_y (a : Vector2) (s : ℚ) : (a * s).y = a.y * s := rfl

@[simp]
theorem Vector2.divScalar_x (a : Vector2) (s : ℚ) : (a / s).x = a.x / s := rfl

@[simp]
theorem Vector2.divScalar_y (a : Vector2) (s : ℚ) : (a / s).y = a.y / s := rfl

/-- `Scalar::EPSILON`: the machine epsilon of the scalar float type (the spec
fixes `Scalar = f64`, whose epsilon is `2 ^ (-52)`). -/
def Scalar.EPSILON : ℚ := 1 / 2 ^ 52

theorem Scalar.EPSILON_pos : 0 < Scalar.EPSILON := by norm_num [Scalar.EPSILON]

/-- Modelled from the spec: `Inertia2d::shifted` is not under `src/`; spec
§4.1 defines the 2d parallel-axis shift as `shift(I, m, d) = I + m * |d|^2`. -/
def shifted2d (i m : ℚ) (d : Vector2) : ℚ := i + m * d.length_squared

/-- Modelled from the spec: `Inertia2d::inverse` is not under `src/`; spec
§4.1 defines 2d inversion as the scalar reciprocal, returning zero when the
inertia is zero (a massless body must behave as unconstrained). -/
def inverse2d (i : ℚ) : ℚ := if i = 0 then 0 else 1 / i

/-- The fields of `ColliderMassProperties2d` that the aggregation operators
read: mass, local inertia and local center of mass.  (The source struct also
carries precomputed inverse mass and inverse inertia, which `add_assign` and
`sub_assign` never read.) -/
structure ColliderMassProperties2d where
  mass : ℚ
  inertia : ℚ
  center_of_mass : Vector2
deriving DecidableEq

/-- The mass-property components of one body, as grouped by the
`MassPropertiesQuery2d` world query: `Mass`, `InverseMass`, `Inertia2d`,
`InverseInertia2d`, `CenterOfMass2d`. -/
@[ext]
structure MassPropertiesQuery2d where
  mass : ℚ
  inverse_mass : FScalar
  inertia : ℚ
  inverse_inertia : ℚ
  center_of_mass : Vector2
deriving DecidableEq

/-- `AddAssign<ColliderMassProperties2d> for MassPropertiesQuery2dItem`:
combine a collider contribution into the body's mass properties. -/
def MassPropertiesQuery2d.add_assign (self : MassPropertiesQuery2d)
    (rhs : ColliderMassProperties2d) : MassPropertiesQuery2d :=
  let new_mass := self.mass + rhs.mass
  if new_mass ≤ 0 then self
  else
    let com1 := self.center_of_mass
    let com2 := rhs.center_of_mass
    let new_com := (com1 * self.mass + com2 * rhs.mass) / new_mass
    let i1 := shifted2d self.inertia self.mass (new_com - com1)
    let i2 := shifted2d rhs.inertia rhs.mass (new_com - com2)
    let new_inertia := i1 + i2
    { mass := new_mass
      inverse_mass := fdivOne new_mass
      inertia := new_inertia
      inverse_inertia := inverse2d new_inertia
      center_of_mass := new_com }

/-- `SubAssign<ColliderMassProperties2d> for MassPropertiesQuery2dItem`:
remove a collider contribution from the body's mass properties. -/
def MassPropertiesQuery2d.sub_assign (self : MassPropertiesQuery2d)
    (rhs : ColliderMassProperties2d) : MassPropertiesQuery2d :=
  if self.mass + rhs.mass ≤ 0 then self
  else
    let new_mass := max (self.mass - rhs.mass) 0
    let com1 := self.center_of_mass
    let com2 := rhs.center_of_mass
    let new_com :=
      if new_mass > Scalar.EPSILON then (com1 * self.mass - com2 * rhs.mass) / new_mass
      else com1
    let i1 := shifted2d self.inertia self.mass (new_com - com1)
    let i2 := shifted2d rhs.inertia rhs.mass (new_com - com2)
    let new_inertia := i1 - i2
    { mass := new_mass
      inverse_mass := fdivOne new_mass
      inertia := new_inertia
      inverse_inertia := inverse2d new_inertia
      center_of_mass := new_com }

theorem add_assign2d_guard (s : MassPropertiesQuery2d) (c : ColliderMassProperties2d)
    (h : s.mass + c.mass ≤ 0) : s.add_assign c = s := by
  simp [MassPropertiesQuery2d.add_assign, h]

theorem sub_assign2d_guard (s : MassPropertiesQuery2d) (c : ColliderMassProperties2d)
    (h : s.mass + c.mass ≤ 0) : s.sub_assign c = s := by
  simp [MassPropertiesQuery2d.sub_assign, h]

theorem add_assign2d_pos (s : MassPropertiesQuery2d) (c : ColliderMassProperties2d)
    (h : ¬ s.mass + c.mass ≤ 0) :
    s.add_assign c =
      { mass := s.mass + c.mass
        inverse_mass := fdivOne (s.mass + c.mass)
        inertia :=
          shifted2d s.inertia s.mass
            ((s.center_of_mass * s.mass + c.center_of_mass * c.mass) / (s.mass + c.mass)
              - s.center_of_mass) +
          shifted2d c.inertia c.mass
            ((s.center_of_mass * s.mass + c.center_of_mass * c.mass) / (s.mass + c.mass)
              - c.center_of_mass)
        inverse_inertia :=
          inverse2d
            (shifted2d s.inertia s.mass
              ((s.center_of_mass * s.mass + c.center_of_mass * c.mass) / (s.mass + c.mass)
                - s.center_of_mass) +
             shifted2d c.inertia c.mass
              ((s.center_of_mass * s.mass + c.center_of_mass * c.mass) / (s.mass + c.mass)
                - c.center_of_mass))
        center_of_mass :=
          (s.center_of_mass * s.mass + c.center_of_mass * c.mass) / (s.mass + c.mass) } := by
  simp [MassPropertiesQuery2d.add_assign, h]

theorem sub_assign2d_pos (s : MassPropertiesQuery2d) (c : ColliderMassProperties2d)
    (h : ¬ s.mass + c.mass ≤ 0) :
    s.sub_assign c =
      { mass := max (s.mass - c.mass) 0
        inverse_mass := fdivOne (max (s.mass - c.mass) 0)
        inertia :=
          shifted2d s.inertia s.mass
            ((if max (s.mass - c.mass) 0 > Scalar.EPSILON then
                (s.center_of_mass * s.mass - c.center_of_mass * c.mass) / max (s.mass - c.mass) 0
              else s.center_of_mass) - s.center_of_mass) -
          shifted2d c.inertia c.mass
            ((if max (s.mass - c.mass) 0 > Scalar.EPSILON then
                (s.center_of_mass * s.mass - c.center_of_mass * c.mass) / max (s.mass - c.mass) 0
              else s.center_of_mass) - c.center_of_mass)
        inverse_inertia :=
          inverse2d
            (shifted2d s.inertia s.mass
              ((if max (s.mass - c.mass) 0 > Scalar.EPSILON then
                  (s.center_of_mass * s.mass - c.center_of_mass * c.mass) / max (s.mass - c.mass) 0
                else s.center_of_mass) - s.center_of_mass) -
             shifted2d c.inertia c.mass
              ((if max (s.mass - c.mass) 0 > Scalar.EPSILON then
                  (s.center_of_mass * s.mass - c.center_of_mass * c.mass) / max (s.mass - c.mass) 0
                else s.center_of_mass) - c.center_of_mass))
        center_of_mass :=
          if max (s.mass - c.mass) 0 > Scalar.EPSILON then
            (s.center_of_mass * s.mass - c.center_of_mass * c.mass) / max (s.mass - c.mass) 0
          else s.center_of_mass } := by
  simp [MassPropertiesQuery2d.sub_assign, h]

/-- The 3d vector type; named `Vector3d` here because Mathlib already declares
a `Vector3` (the source calls it `Vector3`, a triple of scalars). -/
@[ext]
structure Vector3d where
  x : ℚ
  y : ℚ
  z : ℚ
deriving DecidableEq

def Vector3d.add (a b : Vector3d) : Vector3d := ⟨a.x + b.x, a.y + b.y, a.z + b.z⟩

def Vector3d.sub (a b : Vector3d) : Vector3d := ⟨a.x - b.x, a.y - b.y, a.z - b.z⟩

/-- Vector–scalar product `v * s`. -/
def Vector3d.mulScalar (a : Vector3d) (s : ℚ) : Vector3d := ⟨a.x * s, a.y * s, a.z * s⟩

/-- Vector–scalar division `v / s`. -/
def Vector3d.divScalar (a : Vector3d) (s : ℚ) : Vector3d := ⟨a.x / s, a.y / s, a.z / s⟩

/-- `Vector3::splat`. -/
def Vector3d.splat (s : ℚ) : Vector3d := ⟨s, s, s⟩

def Vector3d.length_squared (a : Vector3d) : ℚ := a.x * a.x + a.y * a.y + a.z * a.z

instance : Add Vector3d := ⟨Vector3d.add⟩

instance : Sub Vector3d := ⟨Vector3d.sub⟩

instance : HMul Vector3d ℚ Vector3d := ⟨Vector3d.mulScalar⟩

instance : HDiv Vector3d ℚ Vector3d := ⟨Vector3d.divScalar⟩

@[simp]
theorem Vector3d.add3_x (a b : Vector3d) : (a + b).x = a.x + b.x := rfl

@[simp]
theorem Vector3d.add3_y (a b : Vector3d) : (a + b).y = a.y + b.y := rfl

@[simp]
theorem Vector3d.add3_z (a b : Vector3d) : (a + b).z = a.z + b.z := rfl

@[simp]
theorem Vector3d.sub3_x (a b : Vector3d) : (a - b).x = a.x - b.x := rfl

@[simp]
theorem Vector3d.sub3_y (a b : Vector3d) : (a - b).y = a.y - b.y := rfl

@[simp]
theorem Vector3d.sub3_z (a b : Vector3d) : (a - b).z = a.z - b.z := rfl

@[simp]
theorem Vector3d.mulScalar3_x (a : Vector3d) (s : ℚ) : (a * s).x = a.x * s := rfl

@[simp]
theorem Vector3d.mulScalar3_y (a : Vector3d) (s : ℚ) : (a * s).y = a.y * s := rfl

@[simp]
theorem Vector3d.mulScalar3_z (a : Vector3d) (s : ℚ) : (a * s).z = a.z * s := rfl

@[simp]
theorem Vector3d.divScalar3_x (a : Vector3d) (s : ℚ) : (a / s).x = a.x / s := rfl

@[simp]
theorem Vector3d.divScalar3_y (a : Vector3d) (s : ℚ) : (a / s).y = a.y / s := rfl

@[simp]
theorem Vector3d.divScalar3_z (a : Vector3d) (s : ℚ) : (a / s).z = a.z / s := rfl

/-- The symmetric 3×3 inertia tensor type (`Matrix3` in the source), stored
entrywise. -/
@[ext]
structure Matrix3 where
  m00 : ℚ
  m01 : ℚ
  m02 : ℚ
  m10 : ℚ
  m11 : ℚ
  m12 : ℚ
  m20 : ℚ
  m21 : ℚ
  m22 : ℚ
deriving DecidableEq

def Matrix3.add (a b : Matrix3) : Matrix3 :=
  ⟨a.m00 + b.m00, a.m01 + b.m01, a.m02 + b.m02,
   a.m10 + b.m10, a.m11 + b.m11, a.m12 + b.m12,
   a.m20 + b.m20, a.m21 + b.m21, a.m22 + b.m22⟩

def Matrix3.sub (a b : Matrix3) : Matrix3 :=
  ⟨a.m00 - b.m00, a.m01 - b.m01, a.m02 - b.m02,
   a.m10 - b.m10, a.m11 - b.m11, a.m12 - b.m12,
   a.m20 - b.m20, a.m21 - b.m21, a.m22 - b.m22⟩

def Matrix3.smul (s : ℚ) (a : Matrix3) : Matrix3 :=
  ⟨s * a.m00, s * a.m01, s * a.m02,
   s * a.m10, s * a.m11, s * a.m12,
   s * a.m20, s * a.m21, s * a.m22⟩

/-- The scalar multiple of the 3×3 identity (`s · Id₃`). -/
def Matrix3.scalarDiag (s : ℚ) : Matrix3 := ⟨s, 0, 0, 0, s, 0, 0, 0, s⟩

/-- Outer product `d ⊗ e` of two 3d vectors. -/
def Matrix3.outer (d e : Vector3d) : Matrix3 :=
  ⟨d.x * e.x, d.x * e.y, d.x * e.z,
   d.y * e.x, d.y * e.y, d.y * e.z,
   d.z * e.x, d.z * e.y, d.z * e.z⟩

def Matrix3.zero : Matrix3 := ⟨0, 0, 0, 0, 0, 0, 0, 0, 0⟩

instance : Add Matrix3 := ⟨Matrix3.add⟩

instance : Sub Matrix3 := ⟨Matrix3.sub⟩

@[simp]
theorem Matrix3.add_unfold (a b : Matrix3) : a + b = Matrix3.add a b := rfl

@[simp]
theorem Matrix3.sub_unfold (a b : Matrix3) : a - b = Matrix3.sub a b := rfl

def Matrix3.det (a : Matrix3) : ℚ :=
  a.m00 * (a.m11 * a.m22 - a.m12 * a.m21)
    - a.m01 * (a.m10 * a.m22 - a.m12 * a.m20)
    + a.m02 * (a.m10 * a.m21 - a.m11 * a.m20)

def Matrix3.adjugate (a : Matrix3) : Matrix3 :=
  ⟨a.m11 * a.m22 - a.m12 * a.m21, -(a.m01 * a.m22 - a.m02 * a.m21), a.m01 * a.m12 - a.m02 * a.m11,
   -(a.m10 * a.m22 - a.m12 * a.m20), a.m00 * a.m22 - a.m02 * a.m20, -(a.m00 * a.m12 - a.m02 * a.m10),
   a.m10 * a.m21 - a.m11 * a.m20, -(a.m00 * a.m21 - a.m01 * a.m20), a.m00 * a.m11 - a.m01 * a.m10⟩

/-- Modelled from the spec: `Inertia3d::shifted` is not under `src/`; spec
§4.1 defines the 3d parallel-axis shift as
`shift(I, m, d) = I + m · (|d|² · Id₃ − d ⊗ d)`. -/
def shifted3d (i : Matrix3) (m : ℚ) (d : Vector3d) : Matrix3 :=
  i + Matrix3.smul m (Matrix3.sub (Matrix3.scalarDiag d.length_squared) (Matrix3.outer d d))

/-- Modelled from the spec: `Inertia3d::inverse` is not under `src/`; spec
§4.1 defines 3d inversion as the matrix inverse, returning zero when the
tensor is singular. -/
def inverse3d (i : Matrix3) : Matrix3 :=
  if i.det = 0 then Matrix3.zero else Matrix3.smul (1 / i.det) i.adjugate

/-- The fields of `ColliderMassProperties3d` that the aggregation operators
read. -/
structure ColliderMassProperties3d where
  mass : ℚ
  inertia : Matrix3
  center_of_mass : Vector3d
deriving DecidableEq

/-- The mass-property components of one body, as grouped by the
`MassPropertiesQuery3d` world query. -/
@[ext]
structure MassPropertiesQuery3d where
  mass : ℚ
  inverse_mass : FScalar
  inertia : Matrix3
  inverse_inertia : Matrix3
  center_of_mass : Vector3d
deriving DecidableEq

/-- `AddAssign<ColliderMassProperties3d> for MassPropertiesQuery3dItem`. -/
def MassPropertiesQuery3d.add_assign (self : MassPropertiesQuery3d)
    (rhs : ColliderMassProperties3d) : MassPropertiesQuery3d :=
  let new_mass := self.mass + rhs.mass
  if new_mass ≤ 0 then self
  else
    let com1 := self.center_of_mass
    let com2 := rhs.center_of_mass
    let new_com := (com1 * self.mass + com2 * rhs.mass) / new_mass
    let i1 := shifted3d self.inertia self.mass (new_com - com1)
    let i2 := shifted3d rhs.inertia rhs.mass (new_com - com2)
    let new_inertia := i1 + i2
    { mass := new_mass
      inverse_mass := fdivOne new_mass
      inertia := new_inertia
      inverse_inertia := inverse3d new_inertia
      center_of_mass := new_com }

/-- `SubAssign<ColliderMassProperties3d> for MassPropertiesQuery3dItem`. -/
def MassPropertiesQuery3d.sub_assign (self : MassPropertiesQuery3d)
    (rhs : ColliderMassProperties3d) : MassPropertiesQuery3d :=
  if self.mass + rhs.mass ≤ 0 then self
  else
    let new_mass := max (self.mass - rhs.mass) 0
    let com1 := self.center_of_mass
    let com2 := rhs.center_of_mass
    let new_com :=
      if new_mass > Scalar.EPSILON then (com1 * self.mass - com2 * rhs.mass) / new_mass
      else com1
    let i1 := shifted3d self.inertia self.mass (new_com - com1)
    let i2 := shifted3d rhs.inertia rhs.mass (new_com - com2)
    let new_inertia := i1 - i2
    { mass := new_mass
      inverse_mass := fdivOne new_mass
      inertia := new_inertia
      inverse_inertia := inverse3d new_inertia
      center_of_mass := new_com }

theorem add_assign3d_guard (s : MassPropertiesQuery3d) (c : ColliderMassProperties3d)
    (h : s.mass + c.mass ≤ 0) : s.add_assign c = s := by
  simp [MassPropertiesQuery3d.add_assign, h]

theorem sub_assign3d_guard (s : MassPropertiesQuery3d) (c : ColliderMassProperties3d)
    (h : s.mass + c.mass ≤ 0) : s.sub_assign c = s := by
  simp [MassPropertiesQuery3d.sub_assign, h]

theorem add_assign3d_pos (s : MassPropertiesQuery3d) (c : ColliderMassProperties3d)
    (h : ¬ s.mass + c.mass ≤ 0) :
    s.add_assign c =
      { mass := s.mass + c.mass
        inverse_mass := fdivOne (s.mass + c.mass)
        inertia :=
          shifted3d s.inertia s.mass
            ((s.center_of_mass * s.mass + c.center_of_mass * c.mass) / (s.mass + c.mass)
              - s.center_of_mass) +
          shifted3d c.inertia c.mass
            ((s.center_of_mass * s.mass + c.center_of_mass * c.mass) / (s.mass + c.mass)
              - c.center_of_mass)
        inverse_inertia :=
          inverse3d
            (shifted3d s.inertia s.mass
              ((s.center_of_mass * s.mass + c.center_of_mass * c.mass) / (s.mass + c.mass)
                - s.center_of_mass) +
             shifted3d c.inertia c.mass
              ((s.center_of_mass * s.mass + c.center_of_mass * c.mass) / (s.mass + c.mass)
                - c.center_of_mass))
        center_of_mass :=
          (s.center_of_mass * s.mass + c.center_of_mass * c.mass) / (s.mass + c.mass) } := by
  simp [MassPropertiesQuery3d.add_assign, h]

theorem sub_assign3d_pos (s : MassPropertiesQuery3d) (c : ColliderMassProperties3d)
    (h : ¬ s.mass + c.mass ≤ 0) :
    s.sub_assign c =
      { mass := max (s.mass - c.mass) 0
        inverse_mass := fdivOne (max (s.mass - c.mass) 0)
        inertia :=
          shifted3d s.inertia s.mass
            ((if max (s.mass - c.mass) 0 > Scalar.EPSILON then
                (s.center_of_mass * s.mass - c.center_of_mass * c.mass) / max (s.mass - c.mass) 0
              else s.center_of_mass) - s.center_of_mass) -
          shifted3d c.inertia c.mass
            ((if max (s.mass - c.mass) 0 > Scalar.EPSILON then
                (s.center_of_mass * s.mass - c.center_of_mass * c.mass) / max (s.mass - c.mass) 0
              else s.center_of_mass) - c.center_of_mass)
        inverse_inertia :=
          inverse3d
            (shifted3d s.inertia s.mass
              ((if max (s.mass - c.mass) 0 > Scalar.EPSILON then
                  (s.center_of_mass * s.mass - c.center_of_mass * c.mass) / max (s.mass - c.mass) 0
                else s.center_of_mass) - s.center_of_mass) -
             shifted3d c.inertia c.mass
              ((if max (s.mass - c.mass) 0 > Scalar.EPSILON then
                  (s.center_of_mass * s.mass - c.center_of_mass * c.mass) / max (s.mass - c.mass) 0
                else s.center_of_mass) - c.center_of_mass))
        center_of_mass :=
          if max (s.mass - c.mass) 0 > Scalar.EPSILON then
            (s.center_of_mass * s.mass - c.center_of_mass * c.mass) / max (s.mass - c.mass) 0
          else s.center_of_mass } := by
  simp [MassPropertiesQuery3d.sub_assign, h]

/-- Modelled from the spec: `LockedAxes2d` is not under `src/`; spec §3
describes it as a bitmask-like value with one flag per translational axis
(X, Y) and one for the single 2d rotational axis. -/
structure LockedAxes2d where
  translation_x : Bool
  translation_y : Bool
  rotation : Bool
deriving DecidableEq

/-- Modelled from the spec: `LockedAxes::apply_to_vec` is not under `src/`;
spec §4.3 says it zeroes the components corresponding to locked translational
axes and leaves the others untouched. -/
def LockedAxes2d.apply_to_vec (self : LockedAxes2d) (v : Vector2) : Vector2 :=
  ⟨if self.translation_x then 0 else v.x, if self.translation_y then 0 else v.y⟩

/-- Modelled from the spec: `LockedAxes3d` is not under `src/`; one flag per
translational axis (X, Y, Z) and per rotational axis (X, Y, Z). -/
structure LockedAxes3d where
  translation_x : Bool
  translation_y : Bool
  translation_z : Bool
  rotation_x : Bool
  rotation_y : Bool
  rotation_z : Bool
deriving DecidableEq

/-- Modelled from the spec: `LockedAxes::apply_to_vec` (3d), zeroing locked
translational components. -/
def LockedAxes3d.apply_to_vec (self : LockedAxes3d) (v : Vector3d) : Vector3d :=
  ⟨if self.translation_x then 0 else v.x,
   if self.translation_y then 0 else v.y,
   if self.translation_z then 0 else v.z⟩

/-- Modelled from the spec: the `RigidBody` component is not under `src/`;
spec §4.4 gives its three variants. -/
inductive RigidBody where
  | dynamic
  | kinematic
  | static
deriving DecidableEq

/-- Modelled from the spec: `RigidBody::is_dynamic` holds exactly of the
`Dynamic` variant. -/
def RigidBody.is_dynamic (self : RigidBody) : Bool :=
  match self with
  | RigidBody.dynamic => true
  | _ => false

/-- The fields of the `RigidBodyQuery2d` world query that the accessor methods
under verification read: body kind, position, accumulated translation,
inverse mass, optional locked axes and optional dominance override (an `i8`,
embedded as `ℤ`).  The remaining fields of the source struct (rotation,
previous position/rotation, velocities, pre-solve velocities, mass, inertia,
inverse inertia, center of mass, friction, restitution, entity id) are data
the verified methods never touch; representative ones are kept so that the
record is a genuine body record rather than a minimal tuple. -/
structure RigidBodyQuery2dItem where
  rb : RigidBody
  position : Vector2
  accumulated_translation : Vector2
  linear_velocity : Vector2
  angular_velocity : ℚ
  mass : ℚ
  inverse_mass : ℚ
  inertia : ℚ
  inverse_inertia : ℚ
  center_of_mass : Vector2
  locked_axes : Option LockedAxes2d
  dominance : Option ℤ
deriving DecidableEq

/-- `RigidBodyQuery2dItem::effective_inv_mass`: splat the stored inverse mass
across both translational axes, then mask locked axes if present. -/
def RigidBodyQuery2dItem.effective_inv_mass (self : RigidBodyQuery2dItem) : Vector2 :=
  let inv_mass := Vector2.splat self.inverse_mass
  match self.locked_axes with
  | some locked_axes => locked_axes.apply_to_vec inv_mass
  | none => inv_mass

/-- `RigidBodyQuery2dItem::current_position`: the sum of the `Position` and
`AccumulatedTranslation` components. -/
def RigidBodyQuery2dItem.current_position (self : RigidBodyQuery2dItem) : Vector2 :=
  self.position + self.accumulated_translation

/-- `RigidBodyQuery2dItem::dominance` (named `dominance_value` here because the
record field of the same name holds the optional `Dominance` component):
`i8::MAX = 127` for non-dynamic bodies, otherwise the override or `0`. -/
def RigidBodyQuery2dItem.dominance_value (self : RigidBodyQuery2dItem) : ℤ :=
  if ! self.rb.is_dynamic then 127 else self.dominance.getD 0

/-- The fields of the `RigidBodyQuery3d` world query read by the verified
accessor methods, mirroring `RigidBodyQuery2dItem`. -/
structure RigidBodyQuery3dItem where
  rb : RigidBody
  position : Vector3d
  accumulated_translation : Vector3d
  linear_velocity : Vector3d
  angular_velocity : Vector3d
  mass : ℚ
  inverse_mass : ℚ
  inertia : Matrix3
  inverse_inertia : Matrix3
  center_of_mass : Vector3d
  locked_axes : Option LockedAxes3d
  dominance : Option ℤ
deriving DecidableEq

/-- `RigidBodyQuery3dItem::effective_inv_mass`. -/
def RigidBodyQuery3dItem.effective_inv_mass (self : RigidBodyQuery3dItem) : Vector3d :=
  let inv_mass := Vector3d.splat self.inverse_mass
  match self.locked_axes with
  | some locked_axes => locked_axes.apply_to_vec inv_mass
  | none => inv_mass

/-- `RigidBodyQuery3dItem::current_position`. -/
def RigidBodyQuery3dItem.current_position (self : RigidBodyQuery3dItem) : Vector3d :=
  self.position + self.accumulated_translation

/-- `RigidBodyQuery3dItem::dominance` (see `RigidBodyQuery2dItem.dominance_value`). -/
def RigidBodyQuery3dItem.dominance_value (self : RigidBodyQuery3dItem) : ℤ :=
  if ! self.rb.is_dynamic then 127 else self.dominance.getD 0

/-- One combine (`+=`) or decombine (`-=`) event on a body's 2d mass
properties. -/
inductive MassOp2d where
  | combine (c : ColliderMassProperties2d)
  | decombine (c : ColliderMassProperties2d)

/-- The mass of the collider contribution carried by an operation. -/
def MassOp2d.colliderMass : MassOp2d → ℚ
  | MassOp2d.combine c => c.mass
  | MassOp2d.decombine c => c.mass

def applyMassOp2d (s : MassPropertiesQuery2d) : MassOp2d → MassPropertiesQuery2d
  | MassOp2d.combine c => s.add_assign c
  | MassOp2d.decombine c => s.sub_assign c

def applyMassOps2d (s : MassPropertiesQuery2d) (ops : List MassOp2d) : MassPropertiesQuery2d :=
  ops.foldl applyMassOp2d s

/-- One combine or decombine event on a body's 3d mass properties. -/
inductive MassOp3d where
  | combine (c : ColliderMassProperties3d)
  | decombine (c : ColliderMassProperties3d)

/-- The mass of the collider contribution carried by an operation. -/
def MassOp3d.colliderMass : MassOp3d → ℚ
  | MassOp3d.combine c => c.mass
  | MassOp3d.decombine c => c.mass

def applyMassOp3d (s : MassPropertiesQuery3d) : MassOp3d → MassPropertiesQuery3d
  | MassOp3d.combine c => s.add_assign c
  | MassOp3d.decombine c => s.sub_assign c

def applyMassOps3d (s : MassPropertiesQuery3d) (ops : List MassOp3d) : MassPropertiesQuery3d :=
  ops.foldl applyMassOp3d s

/-- C2: for every combine (`AddAssign`) with `new_mass = mass_body +
mass_collider > 0` (2d and 3d alike), the committed mass is `new_mass`, the
committed inverse mass is `1 / new_mass`, the committed center of mass is the
mass-weighted average of the two centers, and the committed inertia is the sum
of both inertias parallel-axis-shifted to the new center of mass. -/
theorem c2_add_assign_formulas
    (s : MassPropertiesQuery2d) (c : ColliderMassProperties2d)
    (s3 : MassPropertiesQuery3d) (c3 : ColliderMassProperties3d)
    (h2 : 0 < s.mass + c.mass) (h3 : 0 < s3.mass + c3.mass) :
    ((s.add_assign c).mass = s.mass + c.mass ∧
     (s.add_assign c).inverse_mass = FScalar.fin (1 / (s.mass + c.mass)) ∧
     (s.add_assign c).center_of_mass =
       (s.center_of_mass * s.mass + c.center_of_mass * c.mass) / (s.mass + c.mass) ∧
     (s.add_assign c).inertia =
       shifted2d s.inertia s.mass ((s.add_assign c).center_of_mass - s.center_of_mass) +
       shifted2d c.inertia c.mass ((s.add_assign c).center_of_mass - c.center_of_mass)) ∧
    ((s3.add_assign c3).mass = s3.mass + c3.mass ∧
     (s3.add_assign c3).inverse_mass = FScalar.fin (1 / (s3.mass + c3.mass)) ∧
     (s3.add_assign c3).center_of_mass =
       (s3.center_of_mass * s3.mass + c3.center_of_mass * c3.mass) / (s3.mass + c3.mass) ∧
     (s3.add_assign c3).inertia =
       shifted3d s3.inertia s3.mass ((s3.add_assign c3).center_of_mass - s3.center_of_mass) +
       shifted3d c3.inertia c3.mass ((s3.add_assign c3).center_of_mass - c3.center_of_mass)) := by
  rw [add_assign2d_pos s c (not_le.mpr h2), add_assign3d_pos s3 c3 (not_le.mpr h3)]
  refine ⟨⟨rfl, ?_, rfl, rfl⟩, ⟨rfl, ?_, rfl, rfl⟩⟩
  · exact fdivOne_of_ne _ h2.ne'
  · exact fdivOne_of_ne _ h3.ne'

/-- The body record of the repository's `mass_properties_add_assign_works`
test: mass `1.6` at center of mass `(-3.8, 0)`. -/
def addExampleBody : MassPropertiesQuery2d :=
  ⟨1.6, FScalar.fin (1 / 1.6), 0, 0, ⟨-3.8, 0⟩⟩

/-- The collider contribution of the `mass_properties_add_assign_works` test:
mass `8.1` at center of mass `(1.2, 1)`. -/
def addExampleCollider : ColliderMassProperties2d := ⟨8.1, 0, ⟨1.2, 1⟩⟩

/-- A trivial 3d body record used to instantiate the 3d halves of the claim
theorems. -/
def trivialBody3d : MassPropertiesQuery3d :=
  ⟨1, FScalar.fin 1, Matrix3.zero, Matrix3.zero, ⟨0, 0, 0⟩⟩

/-- A trivial 3d collider contribution. -/
def trivialCollider3d : ColliderMassProperties3d := ⟨1, Matrix3.zero, ⟨0, 0, 0⟩⟩

/-- A zero-mass 3d collider contribution. -/
def trivialZeroCollider3d : ColliderMassProperties3d := ⟨0, Matrix3.zero, ⟨0, 0, 0⟩⟩

/-- Witness for C2 at the repository's own worked example: merging mass `1.6`
at `(-3.8, 0)` with mass `8.1` at `(1.2, 1)` yields mass `9.7`, inverse mass
`1 / 9.7`, and a center of mass within `1e-6` of `(0.375257, 0.835051)`. -/
theorem c2_add_assign_example :
    (addExampleBody.add_assign addExampleCollider).mass = 9.7 ∧
    (addExampleBody.add_assign addExampleCollider).inverse_mass = FScalar.fin (1 / 9.7) ∧
    |(addExampleBody.add_assign addExampleCollider).center_of_mass.x - 0.375257| < 0.000001 ∧
    |(addExampleBody.add_assign addExampleCollider).center_of_mass.y - 0.835051| < 0.000001 := by
  obtain ⟨⟨hm, hi, hcom, _⟩, -⟩ :=
    c2_add_assign_formulas addExampleBody addExampleCollider trivialBody3d trivialCollider3d
      (by norm_num [addExampleBody, addExampleCollider])
      (by norm_num [trivialBody3d, trivialCollider3d])
  refine ⟨?_, ?_, ?_, ?_⟩
  · rw [hm]; norm_num [addExampleBody, addExampleCollider]
  · rw [hi]; norm_num [addExampleBody, addExampleCollider]
  · rw [hcom, abs_lt]; constructor <;> norm_num [addExampleBody, addExampleCollider]
  · rw [hcom, abs_lt]; constructor <;> norm_num [addExampleBody, addExampleCollider]

/-- C3: for every decombine (`SubAssign`) whose guard `mass_body +
mass_collider > 0` passes (2d and 3d alike), the committed mass is
`max(mass_body - mass_collider, 0)`; the committed center of mass is
`(com_body * mass_body - com_collider * mass_collider) / new_mass` when
`new_mass` exceeds the machine-epsilon threshold and the prior center of mass
unchanged otherwise; the committed inertia is the difference of the two
inertias each parallel-axis-shifted to the new center of mass. -/
theorem c3_sub_assign_formulas
    (s : MassPropertiesQuery2d) (c : ColliderMassProperties2d)
    (s3 : MassPropertiesQuery3d) (c3 : ColliderMassProperties3d)
    (h2 : 0 < s.mass + c.mass) (h3 : 0 < s3.mass + c3.mass) :
    ((s.sub_assign c).mass = max (s.mass - c.mass) 0 ∧
     (s.sub_assign c).center_of_mass =
       (if max (s.mass - c.mass) 0 > Scalar.EPSILON then
          (s.center_of_mass * s.mass - c.center_of_mass * c.mass) / max (s.mass - c.mass) 0
        else s.center_of_mass) ∧
     (s.sub_assign c).inertia =
       shifted2d s.inertia s.mass ((s.sub_assign c).center_of_mass - s.center_of_mass) -
       shifted2d c.inertia c.mass ((s.sub_assign c).center_of_mass - c.center_of_mass)) ∧
    ((s3.sub_assign c3).mass = max (s3.mass - c3.mass) 0 ∧
     (s3.sub_assign c3).center_of_mass =
       (if max (s3.mass - c3.mass) 0 > Scalar.EPSILON then
          (s3.center_of_mass * s3.mass - c3.center_of_mass * c3.mass) / max (s3.mass - c3.mass) 0
        else s3.center_of_mass) ∧
     (s3.sub_assign c3).inertia =
       shifted3d s3.inertia s3.mass ((s3.sub_assign c3).center_of_mass - s3.center_of_mass) -
       shifted3d c3.inertia c3.mass ((s3.sub_assign c3).center_of_mass - c3.center_of_mass)) := by
  rw [sub_assign2d_pos s c (not_le.mpr h2), sub_assign3d_pos s3 c3 (not_le.mpr h3)]
  exact ⟨⟨rfl, rfl, rfl⟩, ⟨rfl, rfl, rfl⟩⟩

/-- The body record of the repository's `mass_properties_sub_assign_works`
test: mass `8.1` at center of mass `(-3.8, 0)`. -/
def subExampleBody : MassPropertiesQuery2d :=
  ⟨8.1, FScalar.fin (1 / 8.1), 0, 0, ⟨-3.8, 0⟩⟩

/-- The collider contribution of the `mass_properties_sub_assign_works` test:
mass `1.6` at center of mass `(1.2, 1)`. -/
def subExampleCollider : ColliderMassProperties2d := ⟨1.6, 0, ⟨1.2, 1⟩⟩

/-- Witness for C3 at the repository's own worked example: removing mass `1.6`
at `(1.2, 1)` from mass `8.1` at `(-3.8, 0)` yields mass `6.5` and a center of
mass within `1e-6` of `(-5.030769, -0.246153)`. -/
theorem c3_sub_assign_example :
    (subExampleBody.sub_assign subExampleCollider).mass = 6.5 ∧
    |(subExampleBody.sub_assign subExampleCollider).center_of_mass.x - (-5.030769)| < 0.000001 ∧
    |(subExampleBody.sub_assign subExampleCollider).center_of_mass.y - (-0.246153)| < 0.000001 := by
  obtain ⟨⟨hm, hcom, _⟩, -⟩ :=
    c3_sub_assign_formulas subExampleBody subExampleCollider trivialBody3d trivialCollider3d
      (by norm_num [subExampleBody, subExampleCollider])
      (by norm_num [trivialBody3d, trivialCollider3d])
  have hmax : max (subExampleBody.mass - subExampleCollider.mass) 0 = 6.5 := by
    norm_num [subExampleBody, subExampleCollider]
  have hif : max (subExampleBody.mass - subExampleCollider.mass) 0 > Scalar.EPSILON := by
    rw [hmax]; norm_num [Scalar.EPSILON]
  refine ⟨?_, ?_, ?_⟩
  · rw [hm, hmax]
  · rw [hcom, if_pos hif, abs_lt]
    constructor <;> norm_num [subExampleBody, subExampleCollider]
  · rw [hcom, if_pos hif, abs_lt]
    constructor <;> norm_num [subExampleBody, subExampleCollider]

/-- A body record whose collider contribution below makes `add_assign` pass
its guard yet change nothing: every committed value recomputes to the value
already stored. -/
def c4FixedBody : MassPropertiesQuery2d := ⟨1, FScalar.fin 1, 0, 0, ⟨0, 0⟩⟩

/-- A zero-mass, zero-inertia collider contribution located at the body's own
center of mass. -/
def c4ZeroCollider : ColliderMassProperties2d := ⟨0, 0, ⟨0, 0⟩⟩

/-- Counterexample to C4 as stated: combining `c4ZeroCollider` into
`c4FixedBody` leaves all five fields exactly unchanged even though
`mass_body + mass_collider = 1 > 0`, so "no-op if and only if
`mass_body + mass_collider ≤ 0`" fails in the only-if direction. -/
theorem c4_noop_iff_counterexample :
    c4FixedBody.add_assign c4ZeroCollider = c4FixedBody ∧
    ¬ (c4FixedBody.mass + c4ZeroCollider.mass ≤ 0) := by
  constructor
  · rw [add_assign2d_pos c4FixedBody c4ZeroCollider (by norm_num [c4FixedBody, c4ZeroCollider])]
    simp [c4FixedBody, c4ZeroCollider, shifted2d, inverse2d, fdivOne,
      Vector2.length_squared, Vector2.ext_iff]
  · norm_num [c4FixedBody, c4ZeroCollider]

/-- C4 (amended): whenever `mass_body + mass_collider ≤ 0`, both combine
(`AddAssign`) and decombine (`SubAssign`) leave all five fields exactly
unchanged, in 2d and 3d alike; the converse does not hold (see the
counterexample).  Both operations are total functions of the inputs: no error
is raised or propagated for any input. -/
theorem c4_guard_noop
    (s : MassPropertiesQuery2d) (c : ColliderMassProperties2d)
    (s3 : MassPropertiesQuery3d) (c3 : ColliderMassProperties3d) :
    (s.mass + c.mass ≤ 0 → s.add_assign c = s ∧ s.sub_assign c = s) ∧
    (s3.mass + c3.mass ≤ 0 → s3.add_assign c3 = s3 ∧ s3.sub_assign c3 = s3) := by
  exact ⟨fun h => ⟨add_assign2d_guard s c h, sub_assign2d_guard s c h⟩,
         fun h => ⟨add_assign3d_guard s3 c3 h, sub_assign3d_guard s3 c3 h⟩⟩

/-- A 2d body record with negative stored mass, to exercise the guard. -/
def c4NegBody2d : MassPropertiesQuery2d := ⟨-1, FScalar.fin 1, 2, 3, ⟨4, 5⟩⟩

/-- A 3d body record with negative stored mass, to exercise the guard. -/
def c4NegBody3d : MassPropertiesQuery3d :=
  ⟨-1, FScalar.fin 1, Matrix3.zero, Matrix3.zero, ⟨4, 5, 6⟩⟩

/-- Witness for the amended C4: with body mass `-1` and collider mass `0` the
guard sum is `≤ 0` and all four operations are no-ops. -/
theorem c4_guard_noop_witness :
    (c4NegBody2d.add_assign c4ZeroCollider = c4NegBody2d ∧
     c4NegBody2d.sub_assign c4ZeroCollider = c4NegBody2d) ∧
    (c4NegBody3d.add_assign trivialZeroCollider3d = c4NegBody3d ∧
     c4NegBody3d.sub_assign trivialZeroCollider3d = c4NegBody3d) :=
  ⟨(c4_guard_noop c4NegBody2d c4ZeroCollider c4NegBody3d trivialZeroCollider3d).1
     (by norm_num [c4NegBody2d, c4ZeroCollider]),
   (c4_guard_noop c4NegBody2d c4ZeroCollider c4NegBody3d trivialZeroCollider3d).2
     (by norm_num [c4NegBody3d, trivialZeroCollider3d])⟩

/-- C10: decombine places no lower bound on the committed inertia.  In 2d there
is an input with nonnegative body mass, collider mass and inertias that passes
the guard and commits a strictly negative inertia; in 3d similarly the
committed tensor acquires a strictly negative diagonal entry. -/
theorem c10_negative_inertia_exists :
    (∃ (s : MassPropertiesQuery2d) (c : ColliderMassProperties2d),
       0 ≤ s.mass ∧ 0 ≤ c.mass ∧ 0 ≤ s.inertia ∧ 0 ≤ c.inertia ∧
       0 < s.mass + c.mass ∧ (s.sub_assign c).inertia < 0) ∧
    (∃ (s3 : MassPropertiesQuery3d) (c3 : ColliderMassProperties3d),
       0 ≤ s3.mass ∧ 0 ≤ c3.mass ∧ s3.inertia = Matrix3.zero ∧ c3.inertia = Matrix3.zero ∧
       0 < s3.mass + c3.mass ∧ ((s3.sub_assign c3).inertia).m11 < 0) := by
  constructor
  · refine ⟨⟨1, FScalar.fin 1, 0, 0, ⟨0, 0⟩⟩, ⟨1, 0, ⟨1, 0⟩⟩, by norm_num, by norm_num,
      by norm_num, by norm_num, by norm_num, ?_⟩
    rw [sub_assign2d_pos _ _ (by norm_num)]
    norm_num [shifted2d, Vector2.length_squared, Scalar.EPSILON]
  · refine ⟨⟨1, FScalar.fin 1, Matrix3.zero, Matrix3.zero, ⟨0, 0, 0⟩⟩,
      ⟨1, Matrix3.zero, ⟨1, 0, 0⟩⟩, by norm_num, by norm_num, rfl, rfl, by norm_num, ?_⟩
    rw [sub_assign3d_pos _ _ (by norm_num)]
    norm_num [shifted3d, Vector3d.length_squared, Scalar.EPSILON, Matrix3.zero,
      Matrix3.smul, Matrix3.sub, Matrix3.scalarDiag, Matrix3.outer, Matrix3.add]

/-- A consistent body record of mass `1` (inverse mass `1`, zero inertia). -/
def c1Body2d : MassPropertiesQuery2d := ⟨1, FScalar.fin 1, 0, 0, ⟨0, 0⟩⟩

/-- A collider contribution of mass `2`, heavier than the whole body. -/
def c1Collider2d : ColliderMassProperties2d := ⟨2, 0, ⟨0, 0⟩⟩

/-- The 3d analog of `c1Body2d`. -/
def c1Body3d : MassPropertiesQuery3d := ⟨1, FScalar.fin 1, Matrix3.zero, Matrix3.zero, ⟨0, 0, 0⟩⟩

/-- The 3d analog of `c1Collider2d`. -/
def c1Collider3d : ColliderMassProperties3d := ⟨2, Matrix3.zero, ⟨0, 0, 0⟩⟩

/-- C1 evaluated at its failing input: removing a collider of mass `2` from a
body of mass `1` passes the guard (`1 + 2 > 0`) and clamps the committed mass
to exactly `0`, but the committed inverse mass is the float `1.0 / 0.0 = +inf`,
not the `0` that the invariant demands — in 2d and 3d alike. -/
theorem c1_decombine_zero_mass_commits_infinite_inverse_mass :
    (0 < c1Body2d.mass + c1Collider2d.mass ∧
     (c1Body2d.sub_assign c1Collider2d).mass = 0 ∧
     (c1Body2d.sub_assign c1Collider2d).inverse_mass = FScalar.inf ∧
     FScalar.inf ≠ FScalar.fin 0) ∧
    (0 < c1Body3d.mass + c1Collider3d.mass ∧
     (c1Body3d.sub_assign c1Collider3d).mass = 0 ∧
     (c1Body3d.sub_assign c1Collider3d).inverse_mass = FScalar.inf) := by
  have h2 : (c1Body2d.sub_assign c1Collider2d).mass = 0 ∧
      (c1Body2d.sub_assign c1Collider2d).inverse_mass = FScalar.inf := by
    rw [sub_assign2d_pos _ _ (by norm_num [c1Body2d, c1Collider2d])]
    norm_num [c1Body2d, c1Collider2d, fdivOne]
  have h3 : (c1Body3d.sub_assign c1Collider3d).mass = 0 ∧
      (c1Body3d.sub_assign c1Collider3d).inverse_mass = FScalar.inf := by
    rw [sub_assign3d_pos _ _ (by norm_num [c1Body3d, c1Collider3d])]
    norm_num [c1Body3d, c1Collider3d, fdivOne]
  exact ⟨⟨by norm_num [c1Body2d, c1Collider2d], h2.1, h2.2, by simp⟩,
         ⟨by norm_num [c1Body3d, c1Collider3d], h3.1, h3.2⟩⟩

theorem massStep2d (s : MassPropertiesQuery2d) (op : MassOp2d)
    (hs : 0 ≤ s.mass) (hi : s.inverse_mass.nonneg) (hc : 0 ≤ op.colliderMass) :
    0 ≤ (applyMassOp2d s op).mass ∧ (applyMassOp2d s op).inverse_mass.nonneg := by
  cases op with
  | combine c =>
    by_cases hg : s.mass + c.mass ≤ 0
    · rw [applyMassOp2d, add_assign2d_guard s c hg]
      exact ⟨hs, hi⟩
    · rw [applyMassOp2d, add_assign2d_pos s c hg]
      exact ⟨(not_le.mp hg).le, fdivOne_nonneg _ (not_le.mp hg).le⟩
  | decombine c =>
    by_cases hg : s.mass + c.mass ≤ 0
    · rw [applyMassOp2d, sub_assign2d_guard s c hg]
      exact ⟨hs, hi⟩
    · rw [applyMassOp2d, sub_assign2d_pos s c hg]
      exact ⟨le_max_right _ _, fdivOne_nonneg _ (le_max_right _ _)⟩

theorem massSeq2d (ops : List MassOp2d) (s : MassPropertiesQuery2d)
    (hs : 0 ≤ s.mass) (hi : s.inverse_mass.nonneg)
    (hops : ∀ op ∈ ops, 0 ≤ op.colliderMass) :
    0 ≤ (applyMassOps2d s ops).mass ∧ (applyMassOps2d s ops).inverse_mass.nonneg := by
  induction ops generalizing s with
  | nil => exact ⟨hs, hi⟩
  | cons op rest ih =>
    have h1 := massStep2d s op hs hi (hops op (by simp))
    have h2 := ih (applyMassOp2d s op) h1.1 h1.2 (fun o ho => hops o (by simp [ho]))
    simpa [applyMassOps2d, List.foldl_cons] using h2

theorem massStep3d (s : MassPropertiesQuery3d) (op : MassOp3d)
    (hs : 0 ≤ s.mass) (hi : s.inverse_mass.nonneg) (hc : 0 ≤ op.colliderMass) :
    0 ≤ (applyMassOp3d s op).mass ∧ (applyMassOp3d s op).inverse_mass.nonneg := by
  cases op with
  | combine c =>
    by_cases hg : s.mass + c.mass ≤ 0
    · rw [applyMassOp3d, add_assign3d_guard s c hg]
      exact ⟨hs, hi⟩
    · rw [applyMassOp3d, add_assign3d_pos s c hg]
      exact ⟨(not_le.mp hg).le, fdivOne_nonneg _ (not_le.mp hg).le⟩
  | decombine c =>
    by_cases hg : s.mass + c.mass ≤ 0
    · rw [applyMassOp3d, sub_assign3d_guard s c hg]
      exact ⟨hs, hi⟩
    · rw [applyMassOp3d, sub_assign3d_pos s c hg]
      exact ⟨le_max_right _ _, fdivOne_nonneg _ (le_max_right _ _)⟩

theorem massSeq3d (ops : List MassOp3d) (s : MassPropertiesQuery3d)
    (hs : 0 ≤ s.mass) (hi : s.inverse_mass.nonneg)
    (hops : ∀ op ∈ ops, 0 ≤ op.colliderMass) :
    0 ≤ (applyMassOps3d s ops).mass ∧ (applyMassOps3d s ops).inverse_mass.nonneg := by
  induction ops generalizing s with
  | nil => exact ⟨hs, hi⟩
  | cons op rest ih =>
    have h1 := massStep3d s op hs hi (hops op (by simp))
    have h2 := ih (applyMassOp3d s op) h1.1 h1.2 (fun o ho => hops o (by simp [ho]))
    simpa [applyMassOps3d, List.foldl_cons] using h2

/-- C6: starting from a record with nonnegative mass and nonnegative inverse
mass, every finite sequence of combine and decombine operations whose collider
contributions have nonnegative mass keeps the record's mass and inverse mass
nonnegative, in 2d and 3d alike. -/
theorem c6_nonnegativity :
    (∀ (ops : List MassOp2d) (s : MassPropertiesQuery2d),
       0 ≤ s.mass → s.inverse_mass.nonneg → (∀ op ∈ ops, 0 ≤ op.colliderMass) →
       0 ≤ (applyMassOps2d s ops).mass ∧ (applyMassOps2d s ops).inverse_mass.nonneg) ∧
    (∀ (ops : List MassOp3d) (s : MassPropertiesQuery3d),
       0 ≤ s.mass → s.inverse_mass.nonneg → (∀ op ∈ ops, 0 ≤ op.colliderMass) →
       0 ≤ (applyMassOps3d s ops).mass ∧ (applyMassOps3d s ops).inverse_mass.nonneg) :=
  ⟨massSeq2d, massSeq3d⟩

/-- Witness for C6: a combine followed by a mass-clamping decombine on a
concrete record keeps mass and inverse mass nonnegative. -/
theorem c6_nonnegativity_witness :
    (0 ≤ (applyMassOps2d c1Body2d
            [MassOp2d.combine addExampleCollider,
             MassOp2d.decombine ⟨9, 0, ⟨0, 0⟩⟩]).mass ∧
     (applyMassOps2d c1Body2d
        [MassOp2d.combine addExampleCollider,
         MassOp2d.decombine ⟨9, 0, ⟨0, 0⟩⟩]).inverse_mass.nonneg) ∧
    (0 ≤ (applyMassOps3d c1Body3d [MassOp3d.combine trivialCollider3d]).mass ∧
     (applyMassOps3d c1Body3d
        [MassOp3d.combine trivialCollider3d]).inverse_mass.nonneg) :=
  ⟨c6_nonnegativity.1 [MassOp2d.combine addExampleCollider, MassOp2d.decombine ⟨9, 0, ⟨0, 0⟩⟩]
     c1Body2d (by norm_num [c1Body2d]) (by simp [c1Body2d, FScalar.nonneg])
     (by intro op hop
         simp only [List.mem_cons, List.not_mem_nil, or_false] at hop
         rcases hop with h | h <;> subst h <;>
           norm_num [MassOp2d.colliderMass, addExampleCollider]),
   c6_nonnegativity.2 [MassOp3d.combine trivialCollider3d]
     c1Body3d (by norm_num [c1Body3d]) (by simp [c1Body3d, FScalar.nonneg])
     (by intro op hop
         simp only [List.mem_cons, List.not_mem_nil, or_false] at hop
         subst hop
         norm_num [MassOp3d.colliderMass, trivialCollider3d])⟩

/-- C7: `effective_inv_mass` returns the stored inverse mass splatted across
each translational axis; with a `LockedAxes` component present, each locked
translational axis's component is `0` and every other component equals the
stored inverse mass; with no `LockedAxes` component, every component equals
the stored inverse mass — in 2d and 3d alike. -/
theorem c7_effective_inv_mass_masking
    (b : RigidBodyQuery2dItem) (b3 : RigidBodyQuery3dItem) :
    ((b.locked_axes = none → b.effective_inv_mass = Vector2.splat b.inverse_mass) ∧
     (∀ la, b.locked_axes = some la →
        b.effective_inv_mass.x = (if la.translation_x then 0 else b.inverse_mass) ∧
        b.effective_inv_mass.y = (if la.translation_y then 0 else b.inverse_mass))) ∧
    ((b3.locked_axes = none → b3.effective_inv_mass = Vector3d.splat b3.inverse_mass) ∧
     (∀ la, b3.locked_axes = some la →
        b3.effective_inv_mass.x = (if la.translation_x then 0 else b3.inverse_mass) ∧
        b3.effective_inv_mass.y = (if la.translation_y then 0 else b3.inverse_mass) ∧
        b3.effective_inv_mass.z = (if la.translation_z then 0 else b3.inverse_mass))) := by
  refine ⟨⟨fun h => ?_, fun la h => ?_⟩, ⟨fun h => ?_, fun la h => ?_⟩⟩
  · simp [RigidBodyQuery2dItem.effective_inv_mass, h]
  · simp [RigidBodyQuery2dItem.effective_inv_mass, h, LockedAxes2d.apply_to_vec,
      Vector2.splat]
  · simp [RigidBodyQuery3dItem.effective_inv_mass, h]
  · simp [RigidBodyQuery3dItem.effective_inv_mass, h, LockedAxes3d.apply_to_vec,
      Vector3d.splat]

/-- A 2d body with inverse mass `5` and the X translational axis locked. -/
def lockedBody2d : RigidBodyQuery2dItem :=
  ⟨RigidBody.dynamic, ⟨0, 0⟩, ⟨0, 0⟩, ⟨0, 0⟩, 0, 1, 5, 0, 0, ⟨0, 0⟩,
   some ⟨true, false, false⟩, none⟩

/-- A 3d body with inverse mass `7` and the Y translational axis locked. -/
def lockedBody3d : RigidBodyQuery3dItem :=
  ⟨RigidBody.dynamic, ⟨0, 0, 0⟩, ⟨0, 0, 0⟩, ⟨0, 0, 0⟩, ⟨0, 0, 0⟩, 1, 7,
   Matrix3.zero, Matrix3.zero, ⟨0, 0, 0⟩, some ⟨false, true, false, false, false, false⟩, none⟩

/-- Witness for C7: with the X axis locked, the 2d effective inverse mass is
`(0, 5)`; with the Y axis locked, the 3d effective inverse mass is `(7, 0, 7)`. -/
theorem c7_effective_inv_mass_witness :
    (lockedBody2d.effective_inv_mass.x = 0 ∧
     lockedBody2d.effective_inv_mass.y = 5) ∧
    (lockedBody3d.effective_inv_mass.x = 7 ∧
     lockedBody3d.effective_inv_mass.y = 0 ∧
     lockedBody3d.effective_inv_mass.z = 7) := by
  have h := c7_effective_inv_mass_masking lockedBody2d lockedBody3d
  have h2 := h.1.2 ⟨true, false, false⟩ rfl
  have h3 := h.2.2 ⟨false, true, false, false, false, false⟩ rfl
  exact ⟨⟨by simpa [lockedBody2d] using h2.1, by simpa [lockedBody2d] using h2.2⟩,
         ⟨by simpa [lockedBody3d] using h3.1, by simpa [lockedBody3d] using h3.2.1,
          by simpa [lockedBody3d] using h3.2.2⟩⟩

/-- C8: `dominance` returns `i8::MAX = 127` for every static or kinematic
body regardless of any `Dominance` override; for a dynamic body it returns the
override's value when present and `0` when absent — in 2d and 3d alike. -/
theorem c8_dominance_cases (b : RigidBodyQuery2dItem) (b3 : RigidBodyQuery3dItem) :
    ((b.rb = RigidBody.static ∨ b.rb = RigidBody.kinematic → b.dominance_value = 127) ∧
     (b.rb = RigidBody.dynamic →
        b.dominance_value = (match b.dominance with | some d => d | none => 0))) ∧
    ((b3.rb = RigidBody.static ∨ b3.rb = RigidBody.kinematic → b3.dominance_value = 127) ∧
     (b3.rb = RigidBody.dynamic →
        b3.dominance_value = (match b3.dominance with | some d => d | none => 0))) := by
  refine ⟨⟨fun h => ?_, fun h => ?_⟩, ⟨fun h => ?_, fun h => ?_⟩⟩
  · rcases h with h | h <;>
      simp [RigidBodyQuery2dItem.dominance_value, h, RigidBody.is_dynamic]
  · cases hd : b.dominance <;>
      simp [RigidBodyQuery2dItem.dominance_value, h, hd, RigidBody.is_dynamic]
  · rcases h with h | h <;>
      simp [RigidBodyQuery3dItem.dominance_value, h, RigidBody.is_dynamic]
  · cases hd : b3.dominance <;>
      simp [RigidBodyQuery3dItem.dominance_value, h, hd, RigidBody.is_dynamic]

/-- A static 2d body carrying a `Dominance` override of `5`. -/
def staticBody2d : RigidBodyQuery2dItem :=
  ⟨RigidBody.static, ⟨0, 0⟩, ⟨0, 0⟩, ⟨0, 0⟩, 0, 1, 1, 0, 0, ⟨0, 0⟩, none, some 5⟩

/-- A kinematic 3d body carrying a `Dominance` override of `-9`. -/
def kinematicBody3d : RigidBodyQuery3dItem :=
  ⟨RigidBody.kinematic, ⟨0, 0, 0⟩, ⟨0, 0, 0⟩, ⟨0, 0, 0⟩, ⟨0, 0, 0⟩, 1, 1,
   Matrix3.zero, Matrix3.zero, ⟨0, 0, 0⟩, none, some (-9)⟩

/-- A dynamic 2d body with a `Dominance` override of `-3`. -/
def dynamicBody2d : RigidBodyQuery2dItem :=
  ⟨RigidBody.dynamic, ⟨0, 0⟩, ⟨0, 0⟩, ⟨0, 0⟩, 0, 1, 1, 0, 0, ⟨0, 0⟩, none, some (-3)⟩

/-- Witness for C8: the static body with override `5` still reports `127`, the
kinematic 3d body with override `-9` reports `127`, and the dynamic body with
override `-3` reports `-3`. -/
theorem c8_dominance_witness :
    staticBody2d.dominance_value = 127 ∧
    kinematicBody3d.dominance_value = 127 ∧
    dynamicBody2d.dominance_value = -3 :=
  ⟨(c8_dominance_cases staticBody2d kinematicBody3d).1.1 (Or.inl rfl),
   (c8_dominance_cases staticBody2d kinematicBody3d).2.1 (Or.inr rfl),
   (c8_dominance_cases dynamicBody2d kinematicBody3d).1.2 rfl⟩

/-- C9: `current_position` returns exactly the sum of the `Position` and
`AccumulatedTranslation` components, and depends on no other state: any two
bodies agreeing on those two components agree on `current_position` — in 2d
and 3d alike. -/
theorem c9_current_position (b : RigidBodyQuery2dItem) (b3 : RigidBodyQuery3dItem) :
    (b.current_position = b.position + b.accumulated_translation ∧
     ∀ b2 : RigidBodyQuery2dItem, b.position = b2.position →
       b.accumulated_translation = b2.accumulated_translation →
       b.current_position = b2.current_position) ∧
    (b3.current_position = b3.position + b3.accumulated_translation ∧
     ∀ b4 : RigidBodyQuery3dItem, b3.position = b4.position →
       b3.accumulated_translation = b4.accumulated_translation →
       b3.current_position = b4.current_position) := by
  refine ⟨⟨rfl, fun b2 hp ha => ?_⟩, ⟨rfl, fun b4 hp ha => ?_⟩⟩
  · simp [RigidBodyQuery2dItem.current_position, hp, ha]
  · simp [RigidBodyQuery3dItem.current_position, hp, ha]

/-- Witness for C9: evaluated at the concrete locked bodies, shifting
`dynamicBody2d`'s unrelated fields does not change `current_position`. -/
theorem c9_current_position_witness :
    lockedBody2d.current_position = lockedBody2d.position +
      lockedBody2d.accumulated_translation ∧
    lockedBody2d.current_position = dynamicBody2d.current_position ∧
    lockedBody3d.current_position = lockedBody3d.position +
      lockedBody3d.accumulated_translation :=
  ⟨(c9_current_position lockedBody2d lockedBody3d).1.1,
   (c9_current_position lockedBody2d lockedBody3d).1.2 dynamicBody2d rfl rfl,
   (c9_current_position lockedBody2d lockedBody3d).2.1⟩

theorem roundtrip2d (s : MassPropertiesQuery2d) (c : ColliderMassProperties2d)
    (him : s.inverse_mass = FScalar.fin (1 / s.mass))
    (hii : s.inverse_inertia = inverse2d s.inertia)
    (hm : s.mass > Scalar.EPSILON) (hc : 0 < c.mass) :
    (s.add_assign c).sub_assign c = s := by
  have hm0 : (0:ℚ) < s.mass := lt_trans Scalar.EPSILON_pos hm
  have hsum : (0:ℚ) < s.mass + c.mass := by linarith
  have hg1 : ¬ s.mass + c.mass ≤ 0 := not_le.mpr hsum
  have hA := add_assign2d_pos s c hg1
  have hAm : (s.add_assign c).mass = s.mass + c.mass := by rw [hA]
  have hAcom : (s.add_assign c).center_of_mass =
      (s.center_of_mass * s.mass + c.center_of_mass * c.mass) / (s.mass + c.mass) := by
    rw [hA]
  have hAI : (s.add_assign c).inertia =
      shifted2d s.inertia s.mass
        ((s.center_of_mass * s.mass + c.center_of_mass * c.mass) / (s.mass + c.mass)
          - s.center_of_mass) +
      shifted2d c.inertia c.mass
        ((s.center_of_mass * s.mass + c.center_of_mass * c.mass) / (s.mass + c.mass)
          - c.center_of_mass) := by
    rw [hA]
  have hg2 : ¬ (s.add_assign c).mass + c.mass ≤ 0 := by
    rw [hAm]; push_neg; linarith
  rw [sub_assign2d_pos (s.add_assign c) c hg2, hAI, hAcom, hAm]
  rw [show s.mass + c.mass - c.mass = s.mass from by ring, max_eq_left hm0.le, if_pos hm]
  have hcom : ((s.center_of_mass * s.mass + c.center_of_mass * c.mass) / (s.mass + c.mass)
      * (s.mass + c.mass) - c.center_of_mass * c.mass) / s.mass = s.center_of_mass := by
    ext <;> simp <;> field_simp
  rw [hcom]
  have hI : shifted2d
      (shifted2d s.inertia s.mass
        ((s.center_of_mass * s.mass + c.center_of_mass * c.mass) / (s.mass + c.mass)
          - s.center_of_mass) +
       shifted2d c.inertia c.mass
        ((s.center_of_mass * s.mass + c.center_of_mass * c.mass) / (s.mass + c.mass)
          - c.center_of_mass))
      (s.mass + c.mass)
      (s.center_of_mass -
        (s.center_of_mass * s.mass + c.center_of_mass * c.mass) / (s.mass + c.mass)) -
      shifted2d c.inertia c.mass (s.center_of_mass - c.center_of_mass) = s.inertia := by
    simp only [shifted2d, Vector2.length_squared, Vector2.sub_x, Vector2.sub_y,
      Vector2.add_x, Vector2.add_y, Vector2.mulScalar_x, Vector2.mulScalar_y,
      Vector2.divScalar_x, Vector2.divScalar_y]
    field_simp
    ring
  rw [hI, fdivOne_of_ne s.mass hm0.ne', ← him, ← hii]

set_option maxHeartbeats 1600000 in
theorem roundtrip3d (s : MassPropertiesQuery3d) (c : ColliderMassProperties3d)
    (him : s.inverse_mass = FScalar.fin (1 / s.mass))
    (hii : s.inverse_inertia = inverse3d s.inertia)
    (hm : s.mass > Scalar.EPSILON) (hc : 0 < c.mass) :
    (s.add_assign c).sub_assign c = s := by
  have hm0 : (0:ℚ) < s.mass := lt_trans Scalar.EPSILON_pos hm
  have hsum : (0:ℚ) < s.mass + c.mass := by linarith
  have hg1 : ¬ s.mass + c.mass ≤ 0 := not_le.mpr hsum
  have hA := add_assign3d_pos s c hg1
  have hAm : (s.add_assign c).mass = s.mass + c.mass := by rw [hA]
  have hAcom : (s.add_assign c).center_of_mass =
      (s.center_of_mass * s.mass + c.center_of_mass * c.mass) / (s.mass + c.mass) := by
    rw [hA]
  have hAI : (s.add_assign c).inertia =
      shifted3d s.inertia s.mass
        ((s.center_of_mass * s.mass + c.center_of_mass * c.mass) / (s.mass + c.mass)
          - s.center_of_mass) +
      shifted3d c.inertia c.mass
        ((s.center_of_mass * s.mass + c.center_of_mass * c.mass) / (s.mass + c.mass)
          - c.center_of_mass) := by
    rw [hA]
  have hg2 : ¬ (s.add_assign c).mass + c.mass ≤ 0 := by
    rw [hAm]; push_neg; linarith
  rw [sub_assign3d_pos (s.add_assign c) c hg2, hAI, hAcom, hAm]
  rw [show s.mass + c.mass - c.mass = s.mass from by ring, max_eq_left hm0.le, if_pos hm]
  have hcom : ((s.center_of_mass * s.mass + c.center_of_mass * c.mass) / (s.mass + c.mass)
      * (s.mass + c.mass) - c.center_of_mass * c.mass) / s.mass = s.center_of_mass := by
    ext <;> simp <;> field_simp
  rw [hcom]
  have hI : shifted3d
      (shifted3d s.inertia s.mass
        ((s.center_of_mass * s.mass + c.center_of_mass * c.mass) / (s.mass + c.mass)
          - s.center_of_mass) +
       shifted3d c.inertia c.mass
        ((s.center_of_mass * s.mass + c.center_of_mass * c.mass) / (s.mass + c.mass)
          - c.center_of_mass))
      (s.mass + c.mass)
      (s.center_of_mass -
        (s.center_of_mass * s.mass + c.center_of_mass * c.mass) / (s.mass + c.mass)) -
      shifted3d c.inertia c.mass (s.center_of_mass - c.center_of_mass) = s.inertia := by
    simp only [shifted3d, Matrix3.add_unfold, Matrix3.sub_unfold, Matrix3.add, Matrix3.sub,
      Matrix3.smul, Matrix3.scalarDiag, Matrix3.outer, Vector3d.length_squared,
      Vector3d.sub3_x, Vector3d.sub3_y, Vector3d.sub3_z, Vector3d.add3_x, Vector3d.add3_y,
      Vector3d.add3_z, Vector3d.mulScalar3_x, Vector3d.mulScalar3_y, Vector3d.mulScalar3_z,
      Vector3d.divScalar3_x, Vector3d.divScalar3_y, Vector3d.divScalar3_z]
    ext <;> (field_simp; ring)
  rw [hI, fdivOne_of_ne s.mass hm0.ne', ← him, ← hii]

/-- C5: round-trip law.  For every body record satisfying the data-model
invariant (`inverse_mass = 1 / mass`, `inverse_inertia = invert(inertia)`)
whose mass lies above the machine-epsilon threshold (the guarded degenerate
zone), and every collider contribution of positive mass, combining and then
decombining the same contribution restores every one of the five fields —
exactly in this rational-arithmetic model, hence a fortiori within the
claimed `1e-3` tolerance — in 2d and 3d alike. -/
theorem c5_roundtrip_exact
    (s : MassPropertiesQuery2d) (c : ColliderMassProperties2d)
    (s3 : MassPropertiesQuery3d) (c3 : ColliderMassProperties3d)
    (him2 : s.inverse_mass = FScalar.fin (1 / s.mass))
    (hii2 : s.inverse_inertia = inverse2d s.inertia)
    (hm2 : s.mass > Scalar.EPSILON) (hc2 : 0 < c.mass)
    (him3 : s3.inverse_mass = FScalar.fin (1 / s3.mass))
    (hii3 : s3.inverse_inertia = inverse3d s3.inertia)
    (hm3 : s3.mass > Scalar.EPSILON) (hc3 : 0 < c3.mass) :
    (s.add_assign c).sub_assign c = s ∧ (s3.add_assign c3).sub_assign c3 = s3 :=
  ⟨roundtrip2d s c him2 hii2 hm2 hc2, roundtrip3d s3 c3 him3 hii3 hm3 hc3⟩

/-- Witness for C5: the round trip restores the concrete records of the
repository's own tests exactly. -/
theorem c5_roundtrip_witness :
    (addExampleBody.add_assign addExampleCollider).sub_assign addExampleCollider =
      addExampleBody ∧
    (trivialBody3d.add_assign trivialCollider3d).sub_assign trivialCollider3d =
      trivialBody3d :=
  c5_roundtrip_exact addExampleBody addExampleCollider trivialBody3d trivialCollider3d
    (by norm_num [addExampleBody])
    (by simp [addExampleBody, inverse2d])
    (by norm_num [addExampleBody, Scalar.EPSILON])
    (by norm_num [addExampleCollider])
    (by norm_num [trivialBody3d])
    (by simp [trivialBody3d, inverse3d, Matrix3.det, Matrix3.zero])
    (by norm_num [trivialBody3d, Scalar.EPSILON])
    (by norm_num [trivialCollider3d])
